import Mathlib

/-!
Verification development for `bot.py`, a daily-article Telegram bot.

The Python source is shallowly embedded: the in-memory `user_articles`
dict becomes a `Store` (a function from chat/user id to an optional
per-user record), the transport and scheduler side effects become
explicit `Action` values returned by the handler functions, and the two
external HTTP services (content source, words lookup service) become
oracle functions passed as parameters.
-/

namespace Bot

/-- The value stored for one key word in the `definitions` dict built by
`fetch_latest_article`: either a list of definition strings (`defs[:3]`)
or the plain string `"No definition found."`. -/
inductive DefValue where
  | defList (l : List String)
  | noDef (s : String)
deriving DecidableEq, Repr

/-- The dict returned by `fetch_latest_article` on success:
`{"title": ..., "link": ..., "key_words": definitions}`.  Python dicts
preserve insertion order, so `key_words` is a list of pairs. -/
structure Article where
  title : String
  link : String
  key_words : List (String × DefValue)
deriving DecidableEq, Repr

/-- One entry of the global `user_articles` dict:
`{"article": article_data, "read": bool}`. -/
structure UserRecord where
  article : Article
  read : Bool
deriving DecidableEq, Repr

/-- The global `user_articles` dict, keyed by user/chat id. -/
abbrev Store := Nat → Option UserRecord

/-- Observable side effects of the handlers: callback-query answers,
removal of the inline keyboard, outbound messages (with or without the
"Mark as read" button), APScheduler job creation, and
`job.schedule_removal()` calls on the telegram job queue. -/
inductive Action where
  | answer (text : String)
  | editReplyMarkup
  | sendMessage (chatId : Nat) (text : String) (hasMarkReadButton : Bool)
  | scheduleJob (jobName : String) (hour : Nat)
  | scheduleRemoval (jobName : String)
deriving DecidableEq, Repr

/-- `True` exactly on the job-creation actions (used to state that a
code path schedules no jobs). -/
def Action.isSchedule : Action → Bool
  | Action.scheduleJob _ _ => true
  | _ => false

/-- `True` exactly on `schedule_removal` actions (used to state that a
code path cancels no jobs). -/
def Action.isRemoval : Action → Bool
  | Action.scheduleRemoval _ => true
  | _ => false

/-! ### Text pipeline of `fetch_latest_article` (lines 42-53) -/

/-- Helper for `pySplit`: accumulates the current word (reversed). -/
def splitAux : List Char → List Char → List String
  | [], acc => [String.mk acc.reverse]
  | c :: cs, acc =>
      if c = ' ' then String.mk acc.reverse :: splitAux cs []
      else splitAux cs (c :: acc)

/-- Python's `str.split()` with no argument: split on whitespace and
drop empty pieces.  The bodies handled here are single-space separated,
so only the space character is treated as whitespace. -/
def pySplit (s : String) : List String :=
  (splitAux s.toList []).filter (fun w => w ≠ "")

/-- A character kept by `re.sub(r"[^\w']", '', ...)`: word characters
(alphanumeric or underscore) and the apostrophe. -/
def isWordChar (c : Char) : Bool :=
  c.isAlphanum || c = '_' || c = Char.ofNat 39

/-- `re.sub(r"[^\w']", '', word.lower())` (line 48). -/
def clean_word (w : String) : String :=
  String.mk ((w.toList.map Char.toLower).filter isWordChar)

/-- Lines 44-51: take the first 20 whitespace tokens of the body,
normalize each, and keep those of length > 5.  This list is what the
code feeds to `list(set(...))`. -/
def cleanWords (content : String) : List String :=
  (((pySplit content).take 20).map clean_word).filter (fun c => 5 < c.length)

/-- Order-preserving deduplication (first occurrence kept). -/
def dedupAux : List String → List String → List String
  | [], _ => []
  | x :: xs, seen =>
      if seen.contains x then dedupAux xs seen
      else x :: dedupAux xs (x :: seen)

/-- Line 53: `key_words = list(set(clean_words))[:5]`.  A Python `set`
iterates in an unspecified, hash-dependent order; the deduplication is
modelled here in first-occurrence order, which is the order the spec
asserts.  Facts stated about `cleanWords` (membership, length) are
independent of that modelling choice. -/
def key_words (content : String) : List String :=
  (dedupAux (cleanWords content) []).take 5

/-- Python's `sep.join(parts)`. -/
def pyJoin (sep : String) : List String → String
  | [] => ""
  | [x] => x
  | x :: xs => x ++ sep ++ pyJoin sep xs

/-- Line 42: the article body text, the paragraph texts joined with
single spaces.  No truncation is applied anywhere in the source. -/
def contentOf (paras : List String) : String :=
  pyJoin " " paras

/-! ### Enrichment loop of `fetch_latest_article` (lines 57-92) -/

/-- The parsed `frequency` object of the words API
(`zipf` and `diversity`, compared against 4.5 and 0.3).  The JSON
numbers are modelled as rationals. -/
structure FreqData where
  zipf : ℚ
  diversity : ℚ
deriving DecidableEq, Repr

/-- Outcome of one `requests.get` call: either the call raised an
exception (network error, timeout, ...) or it returned a response with
a status code and parsed payload. -/
inductive HttpResult (α : Type) where
  | raised
  | resp (status : Nat) (body : α)
deriving DecidableEq, Repr

/-- The zipf threshold `4.5` of line 72, as the reduced fraction 9/2. -/
def zipfThreshold : ℚ := ⟨9, 2, by decide, by norm_num⟩

/-- The diversity threshold `0.3` of line 72, as the fraction 3/10. -/
def diversityThreshold : ℚ := ⟨3, 10, by decide, by norm_num⟩

/-- One iteration of the `for word in key_words` loop (lines 63-83),
threading the `definitions` dict.  A raised exception escapes the loop
to the function-level `except` (line 90), which makes the whole call
return `None`: this is modelled by returning `none`, which `foldlM`
propagates, skipping the remaining words. -/
def enrichStep (freqO : String → HttpResult FreqData)
    (defO : String → HttpResult (List String))
    (acc : List (String × DefValue)) (word : String) :
    Option (List (String × DefValue)) :=
  match freqO word with
  | HttpResult.raised => none
  | HttpResult.resp status fd =>
    if status = 200 then
      if fd.zipf ≤ zipfThreshold ∧ fd.diversity ≤ diversityThreshold then
        match defO word with
        | HttpResult.raised => none
        | HttpResult.resp st2 defs =>
          if st2 = 200 then
            if defs ≠ [] then some (acc ++ [(word, DefValue.defList (defs.take 3))])
            else some (acc ++ [(word, DefValue.noDef "No definition found.")])
          else some acc
      else some acc
    else some acc

/-- The whole enrichment loop over the selected key words.  `none`
means an exception reached the function-level `except` and the call
produced no result at all. -/
def enrichWords (freqO : String → HttpResult FreqData)
    (defO : String → HttpResult (List String))
    (words : List String) : Option (List (String × DefValue)) :=
  words.foldlM (enrichStep freqO defO) []

/-- `fetch_latest_article`, given the already-extracted title, link and
body paragraphs and the two lookup-service oracles.  Any raised
exception in the enrichment loop yields `None` (lines 90-92); on
success the returned dict holds title, link and the `definitions`
mapping — no body field. -/
def fetch_latest_article (title link : String) (paras : List String)
    (freqO : String → HttpResult FreqData)
    (defO : String → HttpResult (List String)) : Option Article :=
  match enrichWords freqO defO (key_words (contentOf paras)) with
  | none => none
  | some defs => some { title := title, link := link, key_words := defs }

/-! ### Handlers and scheduling -/

/-- Line 180: the job names `button_click` looks up for removal. -/
def reminderJobNames (uid : Nat) : List String :=
  ["reminder_" ++ toString uid ++ "_15",
   "reminder_" ++ toString uid ++ "_18",
   "reminder_" ++ toString uid ++ "_21"]

/-- `button_click` (lines 168-186).  `jobs` is the list of job names
present in `context.job_queue`; `get_jobs_by_name` is modelled by
filtering that list.  Returns the new store and the emitted actions. -/
def button_click (data : String) (uid : Nat) (s : Store) (jobs : List String) :
    Store × List Action :=
  if data = "mark_read" then
    match s uid with
    | some r =>
        (Function.update s uid (some { article := r.article, read := true }),
         [Action.answer "Article marked as read!", Action.editReplyMarkup] ++
           (reminderJobNames uid).flatMap
             (fun n => (jobs.filter (fun j => j = n)).map
               (fun _ => Action.scheduleRemoval n)))
    | none => (s, [Action.answer "No active article to mark as read."])
  else (s, [])

/-- Line 163: the reminder message text. -/
def reminderText (title : String) : String :=
  "⏰ Reminder: Have you read today's article?\n*" ++ title ++ "*"

/-- `send_reminder` (lines 150-166): sends the reminder (with the
"Mark as read" button) only when the chat id has a record and it is
unread; otherwise no message. -/
def send_reminder (cid : Nat) (s : Store) : List Action :=
  match s cid with
  | some r =>
      if r.read then []
      else [Action.sendMessage cid (reminderText r.article.title) true]
  | none => []

/-- Lines 123-129: the `key_words_text` block of the daily message. -/
def formatDefs : DefValue → String
  | DefValue.defList l =>
      pyJoin "\n" (l.enum.map (fun p => "   " ++ toString (p.1 + 1) ++ ". " ++ p.2))
  | DefValue.noDef s => "   " ++ s

/-- Lines 121-129: accumulate the bullet list of key words. -/
def keyWordsText (kw : List (String × DefValue)) : String :=
  kw.foldl (fun acc p => acc ++ "• *" ++ p.1 ++ "*:\n" ++ formatDefs p.2 ++ "\n\n") ""

/-- Lines 131-135: the full daily delivery message. -/
def dailyMessage (a : Article) : String :=
  "📚 *" ++ a.title ++ "*\n\n" ++ "*Key Words:*\n" ++ keyWordsText a.key_words ++
    "\n\n" ++ "[Read full article](" ++ a.link ++ ")"

/-- `send_daily_article` (lines 110-148), with the fetch outcome passed
in.  On `None`: apology message, store untouched.  On success: the
record `{"article": article, "read": False}` is written (it has no
reminder-handle field) and one delivery message with the button is
sent.  No job is scheduled here. -/
def send_daily_article (cid : Nat) (fetched : Option Article) (s : Store) :
    Store × List Action :=
  match fetched with
  | none => (s, [Action.sendMessage cid "Sorry, couldn't fetch an article today." false])
  | some a =>
      (Function.update s cid (some { article := a, read := false }),
       [Action.sendMessage cid (dailyMessage a) true])

/-- Lines 202-210: `main` creates, once at startup on a separate
`BackgroundScheduler`, three daily cron reminder jobs named
`reminder_15`, `reminder_18`, `reminder_21`. -/
def mainScheduleActions : List Action :=
  ([15, 18, 21] : List Nat).map (fun h => Action.scheduleJob ("reminder_" ++ toString h) h)

/-- The names of the reminder jobs `main` creates. -/
def mainReminderJobNames : List String :=
  ["reminder_15", "reminder_18", "reminder_21"]

/-- Every job name the program ever creates: the daily job added by
`/start` on the telegram job queue (default name = callback name) and
the three cron reminder jobs on the background scheduler. -/
def allProgramJobNames : List String :=
  "send_daily_article" :: mainReminderJobNames

/-- The actions emitted by a successful `mark_read` branch of
`button_click`: the answer, the reply-markup edit, and one
`schedule_removal` per queue job whose name matches a looked-up name. -/
def ackActions (uid : Nat) (jobs : List String) : List Action :=
  [Action.answer "Article marked as read!", Action.editReplyMarkup] ++
    (reminderJobNames uid).flatMap
      (fun n => (jobs.filter (fun j => j = n)).map
        (fun _ => Action.scheduleRemoval n))

/-! ### Concrete fixtures used in counterexamples and witnesses -/

/-- A concrete article value. -/
def art0 : Article :=
  { title := "Quantum Oddities", link := "https://example.org/a", key_words := [] }

/-- A store holding exactly one subscriber, id 42, unread. -/
def store42 : Store :=
  fun n => if n = 42 then some { article := art0, read := false } else none

/-- The empty store. -/
def emptyStore : Store := fun _ => none

/-- The body text of the spec's candidate-selection test. -/
def testBody : String :=
  "The extraordinary phenomenon occurred yesterday during observations"

/-- The candidate set the spec claims for `testBody`. -/
def claimedCandidates : List String :=
  ["extraordinary", "phenomenon", "occurred", "yesterday", "observations"]

/-- Frequency data of a rare word (zipf 4, diversity 1/4): below both
thresholds. -/
def rareFreq : FreqData := ⟨4, ⟨1, 4, by decide, by norm_num⟩⟩

/-- Frequency data of a common word (zipf 5, diversity 1): above both
thresholds. -/
def commonFreq : FreqData := ⟨5, 1⟩

/-- A frequency oracle that raises for `aberrant`, qualifies `zymurgy`
as rare, and reports every other word as common. -/
def cexFreq (w : String) : HttpResult FreqData :=
  if w = "aberrant" then HttpResult.raised
  else if w = "zymurgy" then HttpResult.resp 200 rareFreq
  else HttpResult.resp 200 commonFreq

/-- A definitions oracle that always answers 200 with one definition. -/
def cexDefs (_ : String) : HttpResult (List String) :=
  HttpResult.resp 200 ["the study of fermentation"]

/-- A frequency oracle whose lookup FAILS with a non-200 status for
`"first"` and qualifies every other word as rare. -/
def witFreq (w : String) : HttpResult FreqData :=
  if w = "first" then HttpResult.resp 503 ⟨0, 1⟩
  else HttpResult.resp 200 rareFreq

/-- A definitions oracle answering 200 with a single definition. -/
def witDefs (_ : String) : HttpResult (List String) :=
  HttpResult.resp 200 ["a definition"]

/-- A 1001-character paragraph. -/
def bigPara : String := String.mk (List.replicate 1001 'a')

end Bot

namespace Bot

theorem button_click_marks_read (uid : Nat) (s : Store) (r : UserRecord)
    (jq : List String) (h : s uid = some r) :
    button_click "mark_read" uid s jq =
      (Function.update s uid (some { article := r.article, read := true }),
       ackActions uid jq) := by
  simp [button_click, ackActions, h]

theorem foldl_enrich_404 (defO : String → HttpResult (List String)) :
    ∀ (words : List String) (acc : List (String × DefValue)),
      List.foldlM (enrichStep (fun _ => HttpResult.resp 404 ⟨0, 1⟩) defO) acc words =
        some acc := by
  intro words
  induction words with
  | nil => intro acc; rfl
  | cons w ws ih =>
      intro acc
      simpa [List.foldlM_cons, enrichStep] using ih acc

/-- C1: in the source, acknowledgment is claimed (comment, line 179) to
remove the subscriber's pending reminders, but `button_click` looks up
jobs named `reminder_<uid>_15/18/21` in the telegram job queue, while
the only reminder jobs ever created are named `reminder_15/18/21` and
live on a separate `BackgroundScheduler` (lines 202-210).  Evaluated at
subscriber 42 with every job name the program creates present in the
queue: the emitted actions are exactly the answer and the markup edit,
no `schedule_removal` occurs, and the looked-up names match none of the
created ones — the reminder jobs remain scheduled after acknowledgment. -/
theorem ack_cancels_no_reminder_jobs :
    (button_click "mark_read" 42 store42 allProgramJobNames).2 =
      [Action.answer "Article marked as read!", Action.editReplyMarkup] ∧
    ((button_click "mark_read" 42 store42 allProgramJobNames).2.filter
        Action.isRemoval) = [] ∧
    (reminderJobNames 42).filter (fun n => allProgramJobNames.contains n) = [] := by
  decide

/-- C2: a reminder trigger firing for a chat id whose record is absent,
or whose current article is already marked read, sends no message —
`send_reminder` is a no-op there, even after a racing acknowledgment. -/
theorem reminder_noop_when_read_or_absent (cid : Nat) (s : Store)
    (h : s cid = none ∨ ∃ r, s cid = some r ∧ r.read = true) :
    send_reminder cid s = [] := by
  rcases h with h | ⟨r, hr, hread⟩
  · simp [send_reminder, h]
  · simp [send_reminder, hr, hread]

theorem reminder_noop_witness :
    send_reminder 1 (fun _ => none) = [] :=
  reminder_noop_when_read_or_absent 1 (fun _ => none) (Or.inl rfl)

/-- C3 counterexample: acknowledging twice for subscriber 7, the second
call again emits `Article marked as read!` and another button-removal
edit — not an `AlreadyRead` response without side effects, refuting the
claim that the second acknowledgment performs no button-removal edit. -/
theorem second_ack_repeats_edit :
    (button_click "mark_read" 7
      (button_click "mark_read" 7
        (fun n => if n = 7 then some { article := art0, read := false } else none)
        []).1 []).2 =
    [Action.answer "Article marked as read!", Action.editReplyMarkup] := by
  decide

/-- C3 (amended): for a subscriber with a record, the first `mark_read`
sets `read := true`; a second `mark_read` leaves the store unchanged
(no state change) but emits exactly the same actions again — the same
answer text and another button-removal edit.  The code produces no
distinct `AlreadyRead` response. -/
theorem ack_twice (uid : Nat) (s : Store) (r : UserRecord) (jq : List String)
    (h : s uid = some r) :
    (button_click "mark_read" uid s jq).1 uid =
        some { article := r.article, read := true } ∧
    (button_click "mark_read" uid (button_click "mark_read" uid s jq).1 jq).1 =
        (button_click "mark_read" uid s jq).1 ∧
    (button_click "mark_read" uid (button_click "mark_read" uid s jq).1 jq).2 =
        (button_click "mark_read" uid s jq).2 ∧
    Action.editReplyMarkup ∈
        (button_click "mark_read" uid (button_click "mark_read" uid s jq).1 jq).2 := by
  have e1 := button_click_marks_read uid s r jq h
  have hu : (button_click "mark_read" uid s jq).1 uid =
      some { article := r.article, read := true } := by
    rw [e1]; exact Function.update_same _ _ _
  have e2 := button_click_marks_read uid (button_click "mark_read" uid s jq).1
    { article := r.article, read := true } jq hu
  refine ⟨hu, ?_, ?_, ?_⟩
  · rw [e2, e1]
    simp [Function.update_idem]
  · rw [e2, e1]
  · rw [e2]
    simp [ackActions]

theorem ack_twice_witness :
    (button_click "mark_read" 42 store42 []).1 42 =
        some { article := art0, read := true } ∧
    (button_click "mark_read" 42 (button_click "mark_read" 42 store42 []).1 []).1 =
        (button_click "mark_read" 42 store42 []).1 ∧
    (button_click "mark_read" 42 (button_click "mark_read" 42 store42 []).1 []).2 =
        (button_click "mark_read" 42 store42 []).2 ∧
    Action.editReplyMarkup ∈
        (button_click "mark_read" 42 (button_click "mark_read" 42 store42 []).1 []).2 :=
  ack_twice 42 store42 { article := art0, read := false } [] rfl

/-- C4 counterexample: on the spec's test body, the word `during`
(length 6) passes the `len > 5` filter of line 50 and so belongs to the
qualifying cleaned tokens, which number six — yet the claimed candidate
set omits `during`; under first-seen ordering the capped candidate list
is not the claimed one. -/
theorem candidate_selection_cex :
    key_words testBody ≠ claimedCandidates ∧
    "during" ∈ cleanWords testBody ∧
    (cleanWords testBody).length = 6 ∧
    "during" ∉ claimedCandidates := by
  decide

/-- C4 (amended): the cleaned qualifying tokens of the test body are
exactly `[extraordinary, phenomenon, occurred, yesterday, during,
observations]` — `during` qualifies — and the first-seen-order
deduplicated list capped at 5 is `[extraordinary, phenomenon, occurred,
yesterday, during]`; the source's `list(set(...))` leaves the realized
order (hence which 5 of the 6 survive the cap) unspecified. -/
theorem candidate_selection_amended :
    cleanWords testBody =
      ["extraordinary", "phenomenon", "occurred", "yesterday", "during",
       "observations"] ∧
    key_words testBody =
      ["extraordinary", "phenomenon", "occurred", "yesterday", "during"] := by
  decide

/-- C5 counterexample: with a lookup service that raises for `aberrant`
and succeeds for `zymurgy`, enriching `zymurgy` alone succeeds, but the
fetch over the pair returns `None`: the raised per-term failure escapes
to the function-level `except` (lines 90-92), aborting the whole call,
so the succeeding term does not appear in any result mapping. -/
theorem enrichment_isolation_cex :
    cexFreq "aberrant" = HttpResult.raised ∧
    fetch_latest_article "T" "L" ["Zymurgy brewing"] cexFreq cexDefs =
      some { title := "T", link := "L",
             key_words := [("zymurgy",
               DefValue.defList ["the study of fermentation"])] } ∧
    fetch_latest_article "T" "L" ["Aberrant zymurgy brewing"] cexFreq cexDefs =
      none := by
  decide

/-- C5 (amended): a lookup failure reported as a NON-200 status for the
first term is isolated — the term is omitted and the second term's
enrichment completes and appears in the result; a raised transport
exception, by contrast, aborts the whole fetch call. -/
theorem enrichment_isolates_non200 (freqO : String → HttpResult FreqData)
    (defO : String → HttpResult (List String)) (w1 w2 : String)
    (st : Nat) (fd1 fd2 : FreqData) (defs : List String)
    (h1 : freqO w1 = HttpResult.resp st fd1) (hs : st ≠ 200)
    (h2 : freqO w2 = HttpResult.resp 200 fd2)
    (hz : fd2.zipf ≤ zipfThreshold) (hd : fd2.diversity ≤ diversityThreshold)
    (h3 : defO w2 = HttpResult.resp 200 defs) (hne : defs ≠ []) :
    enrichWords freqO defO [w1, w2] =
      some [(w2, DefValue.defList (defs.take 3))] := by
  simp [enrichWords, List.foldlM_cons, enrichStep, h1, hs, h2, hz, hd, h3, hne]

theorem enrichment_isolates_non200_witness :
    enrichWords witFreq witDefs ["first", "second"] =
      some [("second", DefValue.defList (["a definition"].take 3))] :=
  enrichment_isolates_non200 witFreq witDefs "first" "second" 503 ⟨0, 1⟩ rareFreq
    ["a definition"] rfl (by decide) rfl (by decide) (by decide) rfl (by decide)

/-- C6 counterexample: a successful daily delivery fire stores the
record and sends exactly one delivery message; it schedules no job at
all — in particular not the three per-subscriber reminder triggers the
claim requires — and the stored record `{article, read}` has no field
for reminder handles. -/
theorem daily_delivery_schedules_nothing :
    ((send_daily_article 42 (some art0) emptyStore).2.filter Action.isSchedule)
        = [] ∧
    (send_daily_article 42 (some art0) emptyStore).2 =
        [Action.sendMessage 42 (dailyMessage art0) true] ∧
    (send_daily_article 42 (some art0) emptyStore).1 42 =
        some { article := art0, read := false } := by
  refine ⟨rfl, rfl, ?_⟩
  show Function.update emptyStore 42 (some { article := art0, read := false }) 42 =
    some { article := art0, read := false }
  exact Function.update_same _ _ _

/-- C6 (amended): on fetch success the delivery stores
`{article, read := false}` (no reminder handles — the record has none)
and sends one delivery message with the button; on fetch failure it
sends the failure notice and leaves the store untouched; no reminder is
scheduled by the delivery in either case — the only reminder jobs are
the three global daily cron jobs `reminder_15/18/21` created once by
`main` at startup. -/
theorem daily_delivery_amended (cid : Nat) (a : Article) (s : Store) :
    send_daily_article cid (some a) s =
      (Function.update s cid (some { article := a, read := false }),
       [Action.sendMessage cid (dailyMessage a) true]) ∧
    ((send_daily_article cid (some a) s).2.filter Action.isSchedule) = [] ∧
    send_daily_article cid none s =
      (s, [Action.sendMessage cid "Sorry, couldn't fetch an article today." false]) ∧
    mainScheduleActions =
      [Action.scheduleJob "reminder_15" 15, Action.scheduleJob "reminder_18" 18,
       Action.scheduleJob "reminder_21" 21] := by
  refine ⟨rfl, rfl, rfl, ?_⟩
  decide

/-- C7 counterexample: with a single 1001-character paragraph, the body
text computed on a successful fetch (line 42) is the unclipped
1001-character string — longer than the claimed 1000-character bound
and carrying no truncation marker; no truncation exists in the source
and the returned article has no body field at all. -/
theorem body_excerpt_cex :
    contentOf [bigPara] = bigPara ∧ 1000 < (contentOf [bigPara]).length := by
  refine ⟨rfl, ?_⟩
  show 1000 < (List.replicate 1001 'a').length
  rw [List.length_replicate]
  omega

/-- C7 (amended): the body text the fetch computes is the plain
space-join of the paragraph texts, unbounded — for every bound there is
an input exceeding it — and the successfully fetched article consists
of title, link and key words only, with no body excerpt. -/
theorem body_excerpt_amended : ∀ n : Nat, ∃ paras : List String,
    n < (contentOf paras).length ∧
    fetch_latest_article "T" "L" paras (fun _ => HttpResult.resp 404 ⟨0, 1⟩)
        cexDefs =
      some { title := "T", link := "L", key_words := [] } := by
  intro n
  refine ⟨[String.mk (List.replicate (n + 1) 'a')], ?_, ?_⟩
  · show n < (List.replicate (n + 1) 'a').length
    simp
  · have h := foldl_enrich_404 cexDefs
      (key_words (contentOf [String.mk (List.replicate (n + 1) 'a')])) []
    simp [fetch_latest_article, enrichWords, h]

/-- C8: a term passing the rarity filter whose definition lookup
returns 200 is always recorded: with a nonempty definitions payload the
entry is the first (at most) 3 definitions as a list of strings; with
an empty payload the sentinel `No definition found.` entry is recorded
rather than the term being omitted. -/
theorem qualifying_term_recorded (freqO : String → HttpResult FreqData)
    (defO : String → HttpResult (List String)) (w : String)
    (fd : FreqData) (defs : List String)
    (h1 : freqO w = HttpResult.resp 200 fd)
    (hz : fd.zipf ≤ zipfThreshold) (hd : fd.diversity ≤ diversityThreshold)
    (h2 : defO w = HttpResult.resp 200 defs) :
    ∀ acc : List (String × DefValue),
      (defs ≠ [] →
        enrichStep freqO defO acc w =
          some (acc ++ [(w, DefValue.defList (defs.take 3))]) ∧
        (defs.take 3).length ≤ 3) ∧
      (defs = [] →
        enrichStep freqO defO acc w =
          some (acc ++ [(w, DefValue.noDef "No definition found.")])) := by
  intro acc
  refine ⟨fun hne => ⟨?_, ?_⟩, fun hnil => ?_⟩
  · simp [enrichStep, h1, hz, hd, h2, hne]
  · exact List.length_take_le 3 defs
  · simp [enrichStep, h1, hz, hd, h2, hnil]

theorem qualifying_term_recorded_witness :
    (enrichStep (fun _ => HttpResult.resp 200 rareFreq)
        (fun _ => HttpResult.resp 200 ["d1", "d2", "d3", "d4"]) [] "w" =
      some [("w", DefValue.defList (["d1", "d2", "d3", "d4"].take 3))] ∧
     (["d1", "d2", "d3", "d4"].take 3).length ≤ 3) ∧
    enrichStep (fun _ => HttpResult.resp 200 rareFreq)
        (fun _ => HttpResult.resp 200 ([] : List String)) [] "v" =
      some [("v", DefValue.noDef "No definition found.")] :=
  ⟨(qualifying_term_recorded (fun _ => HttpResult.resp 200 rareFreq)
      (fun _ => HttpResult.resp 200 ["d1", "d2", "d3", "d4"]) "w" rareFreq
      ["d1", "d2", "d3", "d4"] rfl (by decide) (by decide) rfl []).1 (by decide),
   (qualifying_term_recorded (fun _ => HttpResult.resp 200 rareFreq)
      (fun _ => HttpResult.resp 200 ([] : List String)) "v" rareFreq
      [] rfl (by decide) (by decide) rfl []).2 rfl⟩

/-- C9: a `mark_read` click from a user with no record answers
`No active article to mark as read.` and leaves the store exactly as it
was — no record is created. -/
theorem ack_without_article (uid : Nat) (s : Store) (jq : List String)
    (h : s uid = none) :
    button_click "mark_read" uid s jq =
      (s, [Action.answer "No active article to mark as read."]) := by
  simp [button_click, h]

theorem ack_without_article_witness :
    button_click "mark_read" 3 emptyStore [] =
      (emptyStore, [Action.answer "No active article to mark as read."]) :=
  ack_without_article 3 emptyStore [] rfl

/-- C10: a successful acknowledgment flips only the subscriber's read
flag — the stored article value is preserved and every other
subscriber's entry in the store is untouched. -/
theorem ack_frame (uid : Nat) (s : Store) (r : UserRecord) (jq : List String)
    (h : s uid = some r) (_hr : r.read = false) :
    (button_click "mark_read" uid s jq).1 uid =
        some { article := r.article, read := true } ∧
    ∀ v : Nat, v ≠ uid → (button_click "mark_read" uid s jq).1 v = s v := by
  have e1 := button_click_marks_read uid s r jq h
  constructor
  · rw [e1]; exact Function.update_same _ _ _
  · intro v hv
    rw [e1]
    exact Function.update_noteq hv _ _

theorem ack_frame_witness :
    (button_click "mark_read" 42 store42 []).1 42 =
        some { article := art0, read := true } ∧
    (button_click "mark_read" 42 store42 []).1 7 = store42 7 :=
  ⟨(ack_frame 42 store42 { article := art0, read := false } [] rfl rfl).1,
   (ack_frame 42 store42 { article := art0, read := false } [] rfl rfl).2 7
     (by decide)⟩

end Bot
